import Mathlib

/-!
Verification of the remote playback coordination core of the lidify server
(backend/src/websocket/remotePlayback.ts) and of the client dispatch logic
(frontend/lib/remote-aware-audio-controls-context.tsx and the remote
playback provider).

The two process-wide JS Maps (activeDevices, userActivePlayer) are modelled
as association lists keyed by strings, with JS Map semantics: set on an
existing key overwrites in place, insertion order is preserved, get returns
the unique value for a key.  Each socket event handler becomes a function
from server state to server state plus the list of messages it emits, in
emission order.
-/

namespace Lidify

/-- Model of the currentTrack value object. -/
structure Track where
  id : String
  title : String
  artist : String
  album : String
  coverArt : Option String
  duration : Int
deriving DecidableEq

/-- Model of the PlaybackDevice interface of remotePlayback.ts. -/
structure PlaybackDevice where
  socketId : String
  deviceId : String
  deviceName : String
  userId : String
  isPlaying : Bool
  currentTrack : Option Track
  currentTime : Int
  volume : Int
  lastSeen : Int
deriving DecidableEq

/-- Command names accepted by the playback protocol. -/
inductive RemoteCmd where
  | play
  | pause
  | next
  | prev
  | seek
  | volume
  | setQueue
  | playTrack
  | transferPlayback
deriving DecidableEq

/-- Command payloads: the payloads built by the transfer handler, plus a
constructor for payloads relayed opaquely by the command router. -/
inductive CmdPayload where
  | empty
  | transferState (track : Track) (currentTime : Int) (isPlaying : Bool) (volume : Int)
  | pauseReason (reason : String)
  | raw (tag : String)
deriving DecidableEq

/-- Device summary as emitted in devices:list broadcasts. -/
structure DeviceSummary where
  deviceId : String
  deviceName : String
  isPlaying : Bool
  currentTrack : Option Track
  currentTime : Int
  volume : Int
deriving DecidableEq

/-- Payload of a playback:state message. -/
structure PlaybackStateUpdate where
  deviceId : String
  isPlaying : Bool
  currentTrack : Option Track
  currentTime : Int
  volume : Int
deriving DecidableEq

/-- Messages emitted by the server, tagged with their destination. -/
inductive OutMsg where
  | errorToSender (socketId : String) (message : String)
  | remoteCommand (targetSocketId : String) (command : RemoteCmd) (payload : CmdPayload)
      (fromDeviceId : Option String)
  | deviceListBroadcast (userId : String) (devices : List DeviceSummary)
  | deviceListToSender (socketId : String) (devices : List (DeviceSummary × Bool))
  | activePlayerBroadcast (userId : String) (deviceId : Option String)
  | stateUpdateBroadcast (userId : String) (exceptSocketId : String) (deviceId : String)
      (deviceName : String) (upd : PlaybackStateUpdate)
  | stateRequest (targetSocketId : String)
deriving DecidableEq

/-- Lookup in an association list, JS Map.get. -/
def mapGet {α : Type} (m : List (String × α)) (k : String) : Option α :=
  (m.find? (fun p => p.1 == k)).map Prod.snd

/-- Insert or overwrite in an association list, JS Map.set: an existing key
is overwritten in place, a new key is appended. -/
def mapSet {α : Type} (m : List (String × α)) (k : String) (v : α) : List (String × α) :=
  if m.any (fun p => p.1 == k) then m.map (fun p => if p.1 == k then (k, v) else p)
  else m ++ [(k, v)]

/-- Removal from an association list, JS Map.delete. -/
def mapDelete {α : Type} (m : List (String × α)) (k : String) : List (String × α) :=
  m.filter (fun p => !(p.1 == k))

/-- The two module-level registries of remotePlayback.ts. -/
structure ServerState where
  activeDevices : List (String × PlaybackDevice)
  userActivePlayer : List (String × Option String)
deriving DecidableEq

/-- Initial server state: both registries empty. -/
def initState : ServerState := ⟨[], []⟩

/-- Well-formedness of the device registry: deviceId keys are unique and
each entry is keyed by the deviceId of its own device record.  Both hold of
every state reachable from initState, since register keys each entry by its
device deviceId and JS Map keys are unique. -/
def RegistryWF (s : ServerState) : Prop :=
  ((s.activeDevices.map Prod.fst).Nodup) ∧ ∀ p ∈ s.activeDevices, p.2.deviceId = p.1

instance (s : ServerState) : Decidable (RegistryWF s) := by
  unfold RegistryWF; infer_instance

/-- Source function getActivePlayer: userActivePlayer.get(userId) ?? null. -/
def getActivePlayer (s : ServerState) (userId : String) : Option String :=
  (mapGet s.userActivePlayer userId).getD none

/-- Source function setActivePlayer: userActivePlayer.set(userId, deviceId). -/
def setActivePlayer (s : ServerState) (userId : String) (deviceId : Option String) : ServerState :=
  { s with userActivePlayer := mapSet s.userActivePlayer userId deviceId }

/-- Source function getUserDevices: all registry values owned by userId, in
insertion order. -/
def getUserDevices (s : ServerState) (userId : String) : List PlaybackDevice :=
  (s.activeDevices.map Prod.snd).filter (fun d => d.userId == userId)

/-- Source function getDevice: activeDevices.get(deviceId). -/
def getDevice (s : ServerState) (deviceId : String) : Option PlaybackDevice :=
  mapGet s.activeDevices deviceId

/-- Source function getDeviceBySocketId: first registry value whose socketId
matches, in insertion order. -/
def getDeviceBySocketId (s : ServerState) (socketId : String) : Option PlaybackDevice :=
  (s.activeDevices.map Prod.snd).find? (fun d => d.socketId == socketId)

/-- Summary shape used by broadcastDeviceList. -/
def summarize (d : PlaybackDevice) : DeviceSummary :=
  { deviceId := d.deviceId, deviceName := d.deviceName, isPlaying := d.isPlaying,
    currentTrack := d.currentTrack, currentTime := d.currentTime, volume := d.volume }

/-- Source function broadcastDeviceList: emit the current device list of the
user to the whole user room. -/
def broadcastDeviceList (s : ServerState) (userId : String) : OutMsg :=
  .deviceListBroadcast userId ((getUserDevices s userId).map summarize)

/-- Handler of device:register: upsert the entry keyed by deviceId with a
fresh record, then broadcast the device list computed on the new state. -/
def handleRegister (s : ServerState) (socketId userId deviceId deviceName : String)
    (now : Int) : ServerState × List OutMsg :=
  let device : PlaybackDevice :=
    { socketId := socketId, deviceId := deviceId, deviceName := deviceName, userId := userId,
      isPlaying := false, currentTrack := none, currentTime := 0, volume := 1, lastSeen := now }
  let s2 : ServerState := { s with activeDevices := mapSet s.activeDevices deviceId device }
  (s2, [broadcastDeviceList s2 userId])

/-- Handler of playback:state: update the reporting device and broadcast the
snapshot to the user room excluding the sender; silent no-op when the device
is unknown or owned by another user. -/
def handleState (s : ServerState) (socketId userId : String) (st : PlaybackStateUpdate)
    (now : Int) : ServerState × List OutMsg :=
  match getDevice s st.deviceId with
  | some device =>
    if device.userId == userId then
      let updated : PlaybackDevice :=
        { device with isPlaying := st.isPlaying,
                      currentTrack := st.currentTrack,
                      currentTime := st.currentTime,
                      volume := st.volume,
                      lastSeen := now }
      ({ s with activeDevices := mapSet s.activeDevices st.deviceId updated },
       [.stateUpdateBroadcast userId socketId st.deviceId device.deviceName st])
    else (s, [])
  | none => (s, [])

/-- Handler of playback:command: reject with playback:error when the target
is unknown or owned by another user, otherwise relay the command to the
socket of the target device. -/
def handleCommand (s : ServerState) (socketId userId targetDeviceId : String)
    (command : RemoteCmd) (payload : CmdPayload) : ServerState × List OutMsg :=
  match getDevice s targetDeviceId with
  | none => (s, [.errorToSender socketId "Device not found or not authorized"])
  | some targetDevice =>
    if targetDevice.userId == userId then
      (s, [.remoteCommand targetDevice.socketId command payload
            ((getDeviceBySocketId s socketId).map (fun d => d.deviceId))])
    else (s, [.errorToSender socketId "Device not found or not authorized"])

/-- Handler of playback:requestState: silent no-op on lookup failure. -/
def handleRequestState (s : ServerState) (socketId userId deviceId : String) :
    ServerState × List OutMsg :=
  match getDevice s deviceId with
  | some targetDevice =>
    if targetDevice.userId == userId then (s, [.stateRequest targetDevice.socketId])
    else (s, [])
  | none => (s, [])

/-- Handler of the devices:list request: reply to the sender only, marking
which summary is the requesting device. -/
def handleDevicesList (s : ServerState) (socketId userId : String) :
    ServerState × List OutMsg :=
  (s, [.deviceListToSender socketId
        ((getUserDevices s userId).map (fun d => (summarize d, d.socketId == socketId)))])

/-- Handler of playback:transfer: reject with playback:error when the sender
socket has no device, the target is unknown, or the target is owned by
another user; otherwise, only when withState is true and the source device
has a current track, emit transferPlayback to the target and then pause with
reason transferred to the source.  The handler never touches
userActivePlayer. -/
def handleTransfer (s : ServerState) (socketId userId toDeviceId : String)
    (withState : Bool) : ServerState × List OutMsg :=
  match getDeviceBySocketId s socketId, getDevice s toDeviceId with
  | some fromDevice, some toDevice =>
    if toDevice.userId == userId then
      match withState, fromDevice.currentTrack with
      | true, some track =>
        (s, [.remoteCommand toDevice.socketId .transferPlayback
              (.transferState track fromDevice.currentTime fromDevice.isPlaying
                fromDevice.volume) (some fromDevice.deviceId),
             .remoteCommand fromDevice.socketId .pause (.pauseReason "transferred") none])
      | _, _ => (s, [])
    else (s, [.errorToSender socketId "Transfer failed: device not found"])
  | _, _ => (s, [.errorToSender socketId "Transfer failed: device not found"])

/-- Handler of playback:setActivePlayer: a null deviceId and a deviceId
absent from the registry are accepted with only a console warning; a device
owned by another user is rejected with playback:error; every accepted call
overwrites the mapping and broadcasts the new authority to the user room. -/
def handleSetActivePlayer (s : ServerState) (socketId userId : String)
    (deviceId : Option String) : ServerState × List OutMsg :=
  match deviceId with
  | none => (setActivePlayer s userId none, [.activePlayerBroadcast userId none])
  | some d =>
    match getDevice s d with
    | none => (setActivePlayer s userId (some d), [.activePlayerBroadcast userId (some d)])
    | some device =>
      if device.userId == userId then
        (setActivePlayer s userId (some d), [.activePlayerBroadcast userId (some d)])
      else (s, [.errorToSender socketId "Device not authorized"])

/-- Handler of disconnect: look up the device of the disconnecting socket,
delete it by deviceId and broadcast the device list; no-op when no registry
entry carries that socketId. -/
def handleDisconnect (s : ServerState) (socketId userId : String) :
    ServerState × List OutMsg :=
  match getDeviceBySocketId s socketId with
  | some device =>
    let s2 : ServerState := { s with activeDevices := mapDelete s.activeDevices device.deviceId }
    (s2, [broadcastDeviceList s2 userId])
  | none => (s, [])

/-- Handler of device:heartbeat: refresh lastSeen; silent no-op otherwise. -/
def handleHeartbeat (s : ServerState) (userId deviceId : String) (now : Int) :
    ServerState × List OutMsg :=
  match getDevice s deviceId with
  | some device =>
    if device.userId == userId then
      ({ s with activeDevices :=
          mapSet s.activeDevices deviceId { device with lastSeen := now } }, [])
    else (s, [])
  | none => (s, [])

/-- The stale device sweep: remove every device whose lastSeen is strictly
older than five minutes before now.  The source loop only deletes and logs;
it emits no message at all. -/
def sweepStaleDevices (s : ServerState) (now : Int) : ServerState × List OutMsg :=
  ({ s with activeDevices :=
      s.activeDevices.filter (fun p => !(p.2.lastSeen < now - 5 * 60 * 1000)) }, [])

/-- One inbound event of the socket protocol, carrying the authenticated
user of the connection and, where the source reads the clock, the current
time in milliseconds. -/
inductive Event where
  | register (socketId userId deviceId deviceName : String) (now : Int)
  | stateUpd (socketId userId : String) (st : PlaybackStateUpdate) (now : Int)
  | heartbeat (userId deviceId : String) (now : Int)
  | command (socketId userId targetDeviceId : String) (cmd : RemoteCmd) (payload : CmdPayload)
  | requestState (socketId userId deviceId : String)
  | listDevices (socketId userId : String)
  | transfer (socketId userId toDeviceId : String) (withState : Bool)
  | setActive (socketId userId : String) (deviceId : Option String)
  | disconnect (socketId userId : String)
  | sweep (now : Int)

/-- Dispatch of one event to its handler. -/
def step (s : ServerState) : Event → ServerState × List OutMsg
  | .register socketId userId deviceId deviceName now =>
      handleRegister s socketId userId deviceId deviceName now
  | .stateUpd socketId userId st now => handleState s socketId userId st now
  | .heartbeat userId deviceId now => handleHeartbeat s userId deviceId now
  | .command socketId userId targetDeviceId cmd payload =>
      handleCommand s socketId userId targetDeviceId cmd payload
  | .requestState socketId userId deviceId => handleRequestState s socketId userId deviceId
  | .listDevices socketId userId => handleDevicesList s socketId userId
  | .transfer socketId userId toDeviceId withState =>
      handleTransfer s socketId userId toDeviceId withState
  | .setActive socketId userId deviceId => handleSetActivePlayer s socketId userId deviceId
  | .disconnect socketId userId => handleDisconnect s socketId userId
  | .sweep now => sweepStaleDevices s now

/-- Run a sequence of events, keeping the final state. -/
def run (s : ServerState) (evs : List Event) : ServerState :=
  evs.foldl (fun st e => (step st e).1) s

/-- The transfer flow started by the client transferPlayback function of the
remote playback provider: it emits playback:transfer first and
playback:setActivePlayer second, so the server processes the transfer event
before the authority mutation.  Outputs are concatenated in emission
order. -/
def transferFlow (s : ServerState) (socketId userId toDeviceId : String)
    (withState : Bool) : ServerState × List OutMsg :=
  let r1 := handleTransfer s socketId userId toDeviceId withState
  let r2 := handleSetActivePlayer r1.1 socketId userId (some toDeviceId)
  (r2.1, r1.2 ++ r2.2)

/-- Client derived flag of the remote playback provider:
activePlayerId === null || activePlayerId === currentDeviceId. -/
def clientIsActivePlayer (activePlayerId : Option String) (currentDeviceId : Option String) :
    Bool :=
  activePlayerId == none || activePlayerId == currentDeviceId

/-- The authority values a client reads when dispatching a control action. -/
structure AuthView where
  activePlayerId : Option String
  currentDeviceId : Option String
deriving DecidableEq

/-- Derived isActivePlayer of a view. -/
def viewIsActivePlayer (v : AuthView) : Bool :=
  clientIsActivePlayer v.activePlayerId v.currentDeviceId

/-- JS truthiness of a nullable string: null and the empty string are
falsy. -/
def jsTruthyId : Option String → Bool
  | none => false
  | some str => !(str == "")

/-- Outcome of dispatching one user-facing control action. -/
inductive DispatchDecision where
  | localExec
  | forward (targetDeviceId : String)
deriving DecidableEq

/-- The executeOrForward helper of the remote aware audio controls context.
The captured argument models the state values closed over when the callback
was registered (used only for logging in the source); the branch decision
reads only the current view obtained through the getter functions. -/
def executeOrForward (captured current : AuthView) : DispatchDecision :=
  if viewIsActivePlayer current then .localExec
  else if jsTruthyId current.activePlayerId then .forward (current.activePlayerId.getD "")
  else .localExec

/-- Sample track used by the concrete scenarios. -/
def trackT : Track :=
  { id := "t1", title := "Song", artist := "Artist", album := "Album",
    coverArt := none, duration := 200 }

/-- Sample device A: registered, playing trackT, owned by user u. -/
def deviceA : PlaybackDevice :=
  { socketId := "sA", deviceId := "A", deviceName := "Phone", userId := "u",
    isPlaying := true, currentTrack := some trackT, currentTime := 30, volume := 1,
    lastSeen := 0 }

/-- Sample device B: registered, idle, owned by user u. -/
def deviceB : PlaybackDevice :=
  { socketId := "sB", deviceId := "B", deviceName := "Laptop", userId := "u",
    isPlaying := false, currentTrack := none, currentTime := 0, volume := 1,
    lastSeen := 0 }

/-- Sample device X: registered, owned by the other user v. -/
def deviceX : PlaybackDevice :=
  { socketId := "sX", deviceId := "X", deviceName := "Other", userId := "v",
    isPlaying := false, currentTrack := none, currentTime := 0, volume := 1,
    lastSeen := 0 }

/-- State with devices A and B of user u, authority held by A. -/
def stateAB : ServerState :=
  { activeDevices := [("A", deviceA), ("B", deviceB)], userActivePlayer := [("u", some "A")] }

/-- State with device A of user u and device X of user v, authority of u
held by A. -/
def stateCross : ServerState :=
  { activeDevices := [("A", deviceA), ("X", deviceX)], userActivePlayer := [("u", some "A")] }

/-- Sample stale device of user u: lastSeen at time 0. -/
def staleDevice : PlaybackDevice :=
  { socketId := "sS", deviceId := "S", deviceName := "Old", userId := "u",
    isPlaying := false, currentTrack := none, currentTime := 0, volume := 1,
    lastSeen := 0 }

/-- State holding only the stale device. -/
def stateStale : ServerState :=
  { activeDevices := [("S", staleDevice)], userActivePlayer := [] }

/-- Unfolding of mapGet on a cons cell. -/
theorem mapGet_cons {α : Type} (p : String × α) (t : List (String × α)) (k : String) :
    mapGet (p :: t) k = if p.1 == k then some p.2 else mapGet t k := by
  by_cases h : (p.1 == k) = true <;> simp [mapGet, List.find?, h]

/-- Unfolding of mapSet on a cons cell. -/
theorem mapSet_cons {α : Type} (p : String × α) (t : List (String × α)) (k : String) (v : α) :
    mapSet (p :: t) k v =
      if p.1 == k then (k, v) :: t.map (fun q => if q.1 == k then (k, v) else q)
      else p :: mapSet t k v := by
  by_cases h : (p.1 == k) = true
  · have hk : p.1 = k := by simpa using h
    simp [mapSet, List.any_cons, h, hk]
  · have hk : ¬p.1 = k := by simpa using h
    by_cases h2 : (t.any (fun q => q.1 == k)) = true <;>
      simp [mapSet, List.any_cons, h, hk, h2]

/-- A set key is afterwards mapped to the set value. -/
theorem mapGet_mapSet_self {α : Type} (m : List (String × α)) (k : String) (v : α) :
    mapGet (mapSet m k v) k = some v := by
  induction m with
  | nil => simp [mapSet, mapGet, List.find?]
  | cons p t ih =>
    rw [mapSet_cons]
    by_cases h : (p.1 == k) = true
    · simp [h, mapGet_cons]
    · simp [h, mapGet_cons, ih]

/-- Every entry of mapSet m k v comes from m or is the new pair. -/
theorem mem_mapSet {α : Type} {m : List (String × α)} {k : String} {v : α}
    {p : String × α} (hp : p ∈ mapSet m k v) : p ∈ m ∨ p = (k, v) := by
  unfold mapSet at hp
  by_cases h : (m.any (fun q => q.1 == k)) = true
  · rw [if_pos h] at hp
    rcases List.mem_map.mp hp with ⟨q, hq, hfq⟩
    by_cases hqk : (q.1 == k) = true
    · right; rw [if_pos hqk] at hfq; exact hfq.symm
    · left; rw [if_neg hqk] at hfq; exact hfq ▸ hq
  · rw [if_neg h] at hp
    rcases List.mem_append.mp hp with h1 | h1
    · exact Or.inl h1
    · exact Or.inr (List.mem_singleton.mp h1)

/-- Overwriting the entries of an existing key leaves the key list
unchanged. -/
theorem map_fst_replace {α : Type} (t : List (String × α)) (k : String) (v : α) :
    (t.map (fun q => if q.1 == k then (k, v) else q)).map Prod.fst = t.map Prod.fst := by
  induction t with
  | nil => rfl
  | cons q t ih =>
    by_cases h : (q.1 == k) = true
    · have hk : q.1 = k := by simpa using h
      simp only [List.map_cons, if_pos h, ih]
      simp [hk]
    · simp only [List.map_cons, if_neg h, ih]

/-- mapSet preserves uniqueness of keys. -/
theorem mapSet_keys_nodup {α : Type} (m : List (String × α)) (k : String) (v : α)
    (h : (m.map Prod.fst).Nodup) : ((mapSet m k v).map Prod.fst).Nodup := by
  induction m with
  | nil => simp [mapSet]
  | cons p t ih =>
    rw [mapSet_cons]
    rcases List.nodup_cons.mp h with ⟨hnp, hnt⟩
    by_cases hpk : (p.1 == k) = true
    · have hk : p.1 = k := by simpa using hpk
      rw [if_pos hpk]
      simp only [List.map_cons, map_fst_replace]
      exact List.nodup_cons.mpr ⟨hk ▸ hnp, hnt⟩
    · rw [if_neg hpk]
      refine List.nodup_cons.mpr ⟨?_, ih hnt⟩
      intro hmem
      rcases List.mem_map.mp hmem with ⟨q, hq, hq1⟩
      rcases mem_mapSet hq with hq2 | hq2
      · apply hnp
        rw [← hq1]
        exact List.mem_map_of_mem Prod.fst hq2
      · apply hpk
        apply beq_iff_eq.mpr
        rw [hq2] at hq1
        exact hq1.symm

/-- With unique keys, membership determines the lookup result. -/
theorem mapGet_of_mem_nodup {α : Type} {m : List (String × α)}
    (h : (m.map Prod.fst).Nodup) {p : String × α} (hp : p ∈ m) :
    mapGet m p.1 = some p.2 := by
  induction m with
  | nil => cases hp
  | cons q t ih =>
    rcases List.nodup_cons.mp h with ⟨hnq, hnt⟩
    rcases List.mem_cons.mp hp with hp1 | hp1
    · rw [hp1, mapGet_cons]; simp
    · have hne : (q.1 == p.1) = false := by
        apply beq_eq_false_iff_ne.mpr
        intro he
        apply hnq
        rw [he]
        exact List.mem_map_of_mem Prod.fst hp1
      rw [mapGet_cons, if_neg (by simp [hne])]
      exact ih hnt hp1

/-- With unique keys and the deviceId key invariant, filtering the registry
values by deviceId yields exactly the lookup result for that id. -/
theorem filter_by_deviceId (m : List (String × PlaybackDevice))
    (h1 : (m.map Prod.fst).Nodup) (h2 : ∀ p ∈ m, p.2.deviceId = p.1) (d : String) :
    (m.map Prod.snd).filter (fun dev => dev.deviceId == d) = (mapGet m d).toList := by
  induction m with
  | nil => simp [mapGet, List.find?]
  | cons p t ih =>
    rcases List.nodup_cons.mp h1 with ⟨hnp, hnt⟩
    have hpd : p.2.deviceId = p.1 := h2 p (List.mem_cons_self p t)
    rw [mapGet_cons]
    by_cases h : (p.1 == d) = true
    · have hd : p.1 = d := by simpa using h
      have htail : (t.map Prod.snd).filter (fun dev => dev.deviceId == d) = [] := by
        apply List.filter_eq_nil_iff.mpr
        intro dev hdev
        rcases List.mem_map.mp hdev with ⟨q, hq, hq2⟩
        have hqk : q.2.deviceId = q.1 := h2 q (List.mem_cons_of_mem p hq)
        have hq1d : q.1 ≠ d := by
          intro he
          apply hnp
          rw [hd, ← he]
          exact List.mem_map_of_mem Prod.fst hq
        simp [← hq2, hqk, hq1d]
      rw [if_pos h]
      simp [List.filter_cons, htail, hpd, hd]
    · have hd : p.1 ≠ d := by simpa using h
      have hne : (p.2.deviceId == d) = false := by
        rw [hpd]; simpa using hd
      rw [if_neg h]
      simp [List.filter_cons, hne,
            ih hnt (fun q hq => h2 q (List.mem_cons_of_mem p hq))]

/-- mapSet with a value keyed by its own deviceId preserves the key
invariant of the registry. -/
theorem mapSet_key_invariant (m : List (String × PlaybackDevice)) (d : String)
    (dev : PlaybackDevice) (h2 : ∀ p ∈ m, p.2.deviceId = p.1) (hd : dev.deviceId = d) :
    ∀ p ∈ mapSet m d dev, p.2.deviceId = p.1 := by
  intro p hp
  rcases mem_mapSet hp with h | h
  · exact h2 p h
  · rw [h]; exact hd

/-- Unfolding of run on a cons cell. -/
theorem run_cons (s : ServerState) (e : Event) (evs : List Event) :
    run s (e :: evs) = run (step s e).1 evs := rfl

/-- The setActivePlayer handler either rejects, leaving the directory
untouched, or overwrites the entry of the calling user with its
argument. -/
theorem handleSetActivePlayer_uap (s : ServerState) (sock uid : String)
    (arg : Option String) :
    (handleSetActivePlayer s sock uid arg).1.userActivePlayer = s.userActivePlayer ∨
    (handleSetActivePlayer s sock uid arg).1.userActivePlayer =
      mapSet s.userActivePlayer uid arg := by
  unfold handleSetActivePlayer
  rcases arg with _ | d
  · right; rfl
  · rcases hg : getDevice s d with _ | device
    · right; simp only [hg]; rfl
    · by_cases h : (device.userId == uid) = true
      · right; simp only [hg]; rw [if_pos h]; rfl
      · left; simp only [hg]; rw [if_neg h]

/-- Every step either leaves the Active-Player Directory untouched or
overwrites one user entry through mapSet: setActivePlayer is the sole
mutation point of authority in the source. -/
theorem step_userActivePlayer (s : ServerState) (e : Event) :
    (step s e).1.userActivePlayer = s.userActivePlayer ∨
    ∃ u a, (step s e).1.userActivePlayer = mapSet s.userActivePlayer u a := by
  cases e with
  | register socketId userId deviceId deviceName now => left; rfl
  | stateUpd socketId userId st now =>
    left
    show (handleState s socketId userId st now).1.userActivePlayer = s.userActivePlayer
    unfold handleState
    cases getDevice s st.deviceId with
    | none => rfl
    | some device => by_cases h : (device.userId == userId) = true <;> simp [h]
  | heartbeat userId deviceId now =>
    left
    show (handleHeartbeat s userId deviceId now).1.userActivePlayer = s.userActivePlayer
    unfold handleHeartbeat
    cases getDevice s deviceId with
    | none => rfl
    | some device => by_cases h : (device.userId == userId) = true <;> simp [h]
  | command socketId userId targetDeviceId cmd payload =>
    left
    show (handleCommand s socketId userId targetDeviceId cmd payload).1.userActivePlayer =
      s.userActivePlayer
    unfold handleCommand
    cases getDevice s targetDeviceId with
    | none => rfl
    | some device => by_cases h : (device.userId == userId) = true <;> simp [h]
  | requestState socketId userId deviceId =>
    left
    show (handleRequestState s socketId userId deviceId).1.userActivePlayer =
      s.userActivePlayer
    unfold handleRequestState
    cases getDevice s deviceId with
    | none => rfl
    | some device => by_cases h : (device.userId == userId) = true <;> simp [h]
  | listDevices socketId userId => left; rfl
  | transfer socketId userId toDeviceId withState =>
    left
    show (handleTransfer s socketId userId toDeviceId withState).1.userActivePlayer =
      s.userActivePlayer
    unfold handleTransfer
    cases getDeviceBySocketId s socketId with
    | none => cases getDevice s toDeviceId <;> rfl
    | some fromDevice =>
      cases getDevice s toDeviceId with
      | none => rfl
      | some toDevice =>
        by_cases h : (toDevice.userId == userId) = true
        · cases withState with
          | false => simp [h]
          | true =>
            cases hct : fromDevice.currentTrack with
            | none => simp [h, hct]
            | some track => simp [h, hct]
        · simp [h]
  | setActive socketId userId deviceId =>
    rcases handleSetActivePlayer_uap s socketId userId deviceId with h | h
    · left; exact h
    · right; exact ⟨userId, deviceId, h⟩
  | disconnect socketId userId =>
    left
    show (handleDisconnect s socketId userId).1.userActivePlayer = s.userActivePlayer
    unfold handleDisconnect
    cases getDeviceBySocketId s socketId with
    | none => rfl
    | some device => rfl
  | sweep now => left; rfl

/-- One step preserves uniqueness of the per-user directory keys. -/
theorem step_uap_nodup (s : ServerState) (e : Event)
    (h : (s.userActivePlayer.map Prod.fst).Nodup) :
    ((step s e).1.userActivePlayer.map Prod.fst).Nodup := by
  rcases step_userActivePlayer s e with heq | ⟨u, a, heq⟩
  · rw [heq]; exact h
  · rw [heq]; exact mapSet_keys_nodup _ u a h

/-- Any run preserves uniqueness of the per-user directory keys. -/
theorem run_uap_nodup (evs : List Event) (s : ServerState)
    (h : (s.userActivePlayer.map Prod.fst).Nodup) :
    ((run s evs).userActivePlayer.map Prod.fst).Nodup := by
  induction evs generalizing s with
  | nil => exact h
  | cons e evs ih => rw [run_cons]; exact ih _ (step_uap_nodup s e h)

/-- A registry entry always appears in the device list of its own user. -/
theorem mem_getUserDevices_self {s : ServerState} {p : String × PlaybackDevice}
    (hp : p ∈ s.activeDevices) : p.2 ∈ getUserDevices s p.2.userId := by
  unfold getUserDevices
  apply List.mem_filter.mpr
  exact ⟨List.mem_map_of_mem Prod.snd hp, by simp⟩

/-- With unique keys, two entries sharing a key are the same entry. -/
theorem eq_of_mem_nodup_keys {α : Type} {m : List (String × α)}
    (h : (m.map Prod.fst).Nodup) {p q : String × α}
    (hp : p ∈ m) (hq : q ∈ m) (hpq : p.1 = q.1) : p = q := by
  have h1 := mapGet_of_mem_nodup h hp
  have h2 := mapGet_of_mem_nodup h hq
  rw [hpq] at h1
  have h3 : some p.2 = some q.2 := h1.symm.trans h2
  obtain ⟨p1, p2⟩ := p
  obtain ⟨q1, q2⟩ := q
  have hpq2 : p1 = q1 := hpq
  have h4 : p2 = q2 := Option.some.inj h3
  rw [hpq2, h4]

/-- The derived isActivePlayer flag is true exactly when the authority is
null or equal to the own device id. -/
theorem clientIsActivePlayer_iff (a : Option String) (d : String) :
    clientIsActivePlayer a (some d) = true ↔ (a = none ∨ a = some d) := by
  cases a <;> simp [clientIsActivePlayer]

/-- The register handler upserts exactly the fresh device record keyed by
the registered deviceId. -/
theorem handleRegister_activeDevices (s : ServerState) (sock u d n : String) (now : Int) :
    (handleRegister s sock u d n now).1.activeDevices =
      mapSet s.activeDevices d
        { socketId := sock, deviceId := d, deviceName := n, userId := u,
          isPlaying := false, currentTrack := none, currentTime := 0, volume := 1,
          lastSeen := now } := rfl

/-- C1 counterexample: after the explicit authority sequence set A then set
null for user u, the directory maps u to null and two distinct devices A
and B both derive isActivePlayer = true.  This refutes the claim that once
authority has been explicitly set at least once, no two devices of the same
user simultaneously compute isActivePlayer = true: an explicit reset to
null restores the dual-default. -/
theorem c1_single_authority_counterexample :
    getActivePlayer (run initState
      [.setActive "s1" "u" (some "A"), .setActive "s1" "u" none]) "u" = none ∧
    clientIsActivePlayer (getActivePlayer (run initState
      [.setActive "s1" "u" (some "A"), .setActive "s1" "u" none]) "u") (some "A") = true ∧
    clientIsActivePlayer (getActivePlayer (run initState
      [.setActive "s1" "u" (some "A"), .setActive "s1" "u" none]) "u") (some "B") = true ∧
    "A" ≠ "B" := by
  decide

/-- C1 corrected: for every event sequence from the initial state, the
Active-Player Directory keeps unique user keys, so get returns exactly one
value per user; the derived isActivePlayer of a device equals
(activePlayerId is null) or (activePlayerId equals the own device id); and
whenever the current authority value is non-null, no two distinct devices
of that user compute isActivePlayer = true.  The original condition, once
authority has been explicitly set at least once, is not sufficient because
an explicit set to null is accepted and makes every device authoritative
again. -/
theorem c1_single_authority (evs : List Event) (u d1 d2 : String)
    (hne : d1 ≠ d2) (hnn : getActivePlayer (run initState evs) u ≠ none) :
    (((run initState evs).userActivePlayer.map Prod.fst).Nodup) ∧
    (∀ a d, clientIsActivePlayer a (some d) = true ↔ (a = none ∨ a = some d)) ∧
    ¬(clientIsActivePlayer (getActivePlayer (run initState evs) u) (some d1) = true ∧
      clientIsActivePlayer (getActivePlayer (run initState evs) u) (some d2) = true) := by
  refine ⟨run_uap_nodup evs initState (by simp [initState]), clientIsActivePlayer_iff, ?_⟩
  rintro ⟨hc1, hc2⟩
  rcases (clientIsActivePlayer_iff _ d1).mp hc1 with h | h
  · exact hnn h
  · rcases (clientIsActivePlayer_iff _ d2).mp hc2 with h2 | h2
    · exact hnn h2
    · rw [h] at h2
      exact hne (Option.some.inj h2)

/-- C1 witness at a concrete run: after authority is set to device A, the
devices A and B of user u do not both derive isActivePlayer = true. -/
theorem c1_single_authority_witness :
    ¬(clientIsActivePlayer (getActivePlayer (run initState
        [.setActive "s1" "u" (some "A")]) "u") (some "A") = true ∧
      clientIsActivePlayer (getActivePlayer (run initState
        [.setActive "s1" "u" (some "A")]) "u") (some "B") = true) :=
  (c1_single_authority [.setActive "s1" "u" (some "A")] "u" "A" "B"
    (by decide) (by decide)).2.2

/-- C2 counterexample: in a state where authority of user u is device A,
handling playback:transfer from A to B with state emits the
transferPlayback and pause messages while the Active-Player Directory entry
of u still holds A, not B, and the handler leaves the directory untouched.
Authority is therefore not reassigned before the messages are emitted,
refuting the claimed ordering: the directory flips only when the separate
playback:setActivePlayer message sent afterwards by the client is
handled. -/
theorem c2_transfer_ordering_counterexample :
    (handleTransfer stateAB "sA" "u" "B" true).2 =
      [.remoteCommand "sB" .transferPlayback (.transferState trackT 30 true 1) (some "A"),
       .remoteCommand "sA" .pause (.pauseReason "transferred") none] ∧
    (handleTransfer stateAB "sA" "u" "B" true).1 = stateAB ∧
    getActivePlayer (handleTransfer stateAB "sA" "u" "B" true).1 "u" = some "A" ∧
    (some "A" : Option String) ≠ some "B" := by
  decide

/-- C2 corrected: the server transfer handler does not touch the directory
at all; in the full client transfer flow (playback:transfer followed by
playback:setActivePlayer), the directory entry of the user is set to
toDeviceId only after the transferPlayback and pause messages have been
emitted, and the authority broadcast is the last message of the flow. -/
theorem c2_transfer_ordering (s : ServerState) (sock uid toD : String) (w : Bool)
    (fromD toDev : PlaybackDevice)
    (hf : getDeviceBySocketId s sock = some fromD)
    (ht : getDevice s toD = some toDev)
    (hu : toDev.userId = uid) :
    (handleTransfer s sock uid toD w).1 = s ∧
    getActivePlayer (transferFlow s sock uid toD w).1 uid = some toD ∧
    (transferFlow s sock uid toD w).2 =
      (handleTransfer s sock uid toD w).2 ++ [.activePlayerBroadcast uid (some toD)] := by
  have hbeq : (toDev.userId == uid) = true := by simp [hu]
  have h1 : (handleTransfer s sock uid toD w).1 = s := by
    unfold handleTransfer
    simp only [hf, ht]
    rw [if_pos hbeq]
    cases w with
    | false => rfl
    | true => cases hct : fromD.currentTrack <;> simp only [hct]
  have h2 : handleSetActivePlayer s sock uid (some toD) =
      (setActivePlayer s uid (some toD), [.activePlayerBroadcast uid (some toD)]) := by
    unfold handleSetActivePlayer
    simp only [ht]
    rw [if_pos hbeq]
  refine ⟨h1, ?_, ?_⟩
  · show getActivePlayer
      (handleSetActivePlayer (handleTransfer s sock uid toD w).1 sock uid (some toD)).1
      uid = some toD
    rw [h1, h2]
    show (mapGet (mapSet s.userActivePlayer uid (some toD)) uid).getD none = some toD
    rw [mapGet_mapSet_self]
    rfl
  · show (handleTransfer s sock uid toD w).2 ++
      (handleSetActivePlayer (handleTransfer s sock uid toD w).1 sock uid (some toD)).2 = _
    rw [h1, h2]

/-- C2 witness: the amended ordering at the concrete two-device state. -/
theorem c2_transfer_ordering_witness :
    getActivePlayer (transferFlow stateAB "sA" "u" "B" true).1 "u" = some "B" :=
  (c2_transfer_ordering stateAB "sA" "u" "B" true deviceA deviceB
    (by decide) (by decide) (by decide)).2.1

/-- C3 counterexample: transferring to the unregistered device Z makes the
transfer handler emit playback:error to the caller and leave the state
unchanged; in particular authority is not set to Z by the handler.  This
refutes the claim that such a transfer proceeds without an error to the
caller. -/
theorem c3_transfer_liveness_counterexample :
    (handleTransfer stateAB "sA" "u" "Z" true).2 =
      [.errorToSender "sA" "Transfer failed: device not found"] ∧
    (handleTransfer stateAB "sA" "u" "Z" true).1 = stateAB ∧
    getActivePlayer (handleTransfer stateAB "sA" "u" "Z" true).1 "u" ≠ some "Z" := by
  decide

/-- C3 corrected: when toDeviceId is not registered the transfer handler
fails with playback:error and emits no transfer message; the full client
flow nevertheless ends with authority set to toDeviceId, because the
follow-up playback:setActivePlayer accepts an unregistered device with only
a warning, so the caller receives both the error and the authority
broadcast. -/
theorem c3_transfer_unregistered_target (s : ServerState) (sock uid toD : String)
    (w : Bool) (ht : getDevice s toD = none) :
    handleTransfer s sock uid toD w =
      (s, [.errorToSender sock "Transfer failed: device not found"]) ∧
    (transferFlow s sock uid toD w).2 =
      [.errorToSender sock "Transfer failed: device not found",
       .activePlayerBroadcast uid (some toD)] ∧
    getActivePlayer (transferFlow s sock uid toD w).1 uid = some toD := by
  have h1 : handleTransfer s sock uid toD w =
      (s, [.errorToSender sock "Transfer failed: device not found"]) := by
    unfold handleTransfer
    cases hs : getDeviceBySocketId s sock <;> simp only [hs, ht]
  have h2 : handleSetActivePlayer s sock uid (some toD) =
      (setActivePlayer s uid (some toD), [.activePlayerBroadcast uid (some toD)]) := by
    unfold handleSetActivePlayer
    simp only [ht]
  refine ⟨h1, ?_, ?_⟩
  · show (handleTransfer s sock uid toD w).2 ++
      (handleSetActivePlayer (handleTransfer s sock uid toD w).1 sock uid (some toD)).2 = _
    rw [h1, h2]
    rfl
  · show getActivePlayer
      (handleSetActivePlayer (handleTransfer s sock uid toD w).1 sock uid (some toD)).1
      uid = some toD
    rw [h1, h2]
    show (mapGet (mapSet s.userActivePlayer uid (some toD)) uid).getD none = some toD
    rw [mapGet_mapSet_self]
    rfl

/-- C3 witness: the amended behaviour at the concrete state with the
unregistered target Z. -/
theorem c3_transfer_unregistered_target_witness :
    getActivePlayer (transferFlow stateAB "sA" "u" "Z" true).1 "u" = some "Z" :=
  (c3_transfer_unregistered_target stateAB "sA" "u" "Z" true (by decide)).2.2

/-- C4 counterexample: a transfer from A to B with withState = false
completes (both devices are registered to user u, so no error is emitted)
yet emits no message at all; in particular the source device receives no
pause command.  This refutes the claim that every completed transfer sends
pause with reason transferred to the source. -/
theorem c4_pause_on_transfer_counterexample :
    getDeviceBySocketId stateAB "sA" = some deviceA ∧
    getDevice stateAB "B" = some deviceB ∧
    deviceB.userId = "u" ∧
    (handleTransfer stateAB "sA" "u" "B" false).2 = [] := by
  decide

/-- C4 corrected: the pause command with reason transferred is sent to the
source device exactly in the withState case with a non-null current track
on the source; then the handler emits the transferPlayback command to the
target followed by the pause command to the source. -/
theorem c4_pause_on_transfer (s : ServerState) (sock uid toD : String)
    (fromD toDev : PlaybackDevice) (track : Track)
    (hf : getDeviceBySocketId s sock = some fromD)
    (ht : getDevice s toD = some toDev)
    (hu : toDev.userId = uid)
    (hc : fromD.currentTrack = some track) :
    (handleTransfer s sock uid toD true).2 =
      [.remoteCommand toDev.socketId .transferPlayback
         (.transferState track fromD.currentTime fromD.isPlaying fromD.volume)
         (some fromD.deviceId),
       .remoteCommand fromD.socketId .pause (.pauseReason "transferred") none] := by
  have hbeq : (toDev.userId == uid) = true := by simp [hu]
  unfold handleTransfer
  simp only [hf, ht]
  rw [if_pos hbeq]
  simp only [hc]

/-- C4 witness: the pause message at the concrete two-device state. -/
theorem c4_pause_on_transfer_witness :
    (handleTransfer stateAB "sA" "u" "B" true).2 =
      [.remoteCommand "sB" .transferPlayback (.transferState trackT 30 true 1) (some "A"),
       .remoteCommand "sA" .pause (.pauseReason "transferred") none] :=
  c4_pause_on_transfer stateAB "sA" "u" "B" deviceA deviceB trackT
    (by decide) (by decide) (by decide) (by decide)

/-- C5 confirmed: whenever the target of a routed command is absent from
the registry or owned by another user than the sender, the command handler
leaves the state unchanged, sends exactly one playback:error event to the
sender, and delivers no remoteCommand message to any device. -/
theorem c5_command_scoping (s : ServerState) (sock uid tgt : String)
    (command : RemoteCmd) (payload : CmdPayload)
    (h : ((getDevice s tgt).all fun dev => !(dev.userId == uid)) = true) :
    handleCommand s sock uid tgt command payload =
      (s, [.errorToSender sock "Device not found or not authorized"]) ∧
    ∀ m ∈ (handleCommand s sock uid tgt command payload).2,
      ∀ tsock c p f, m ≠ OutMsg.remoteCommand tsock c p f := by
  have h1 : handleCommand s sock uid tgt command payload =
      (s, [.errorToSender sock "Device not found or not authorized"]) := by
    unfold handleCommand
    cases hd : getDevice s tgt with
    | none => rfl
    | some dev =>
      rw [hd] at h
      have hne : (dev.userId == uid) = false := by simpa [Option.all] using h
      simp only [hd]
      rw [if_neg (by simp [hne])]
  refine ⟨h1, ?_⟩
  rw [h1]
  intro m hm tsock c p f
  rw [List.mem_singleton.mp hm]
  intro hcon
  exact OutMsg.noConfusion hcon

/-- C5 witness: a command from user u targeting device X of user v is
rejected with a single error event. -/
theorem c5_command_scoping_witness :
    handleCommand stateCross "sA" "u" "X" .next .empty =
      (stateCross, [.errorToSender "sA" "Device not found or not authorized"]) :=
  (c5_command_scoping stateCross "sA" "u" "X" .next .empty (by decide)).1

/-- C6 counterexample: the stale device S (lastSeen 0, swept at time
600000, threshold 300000) is gone from listByUser after the sweep, but the
sweep emits no message at all, in particular no devices:list broadcast.
This refutes the claimed unregister-like broadcast on eviction; clients
learn of the removal only when the next registry change or list request
happens. -/
theorem c6_stale_eviction_counterexample :
    staleDevice.lastSeen < 600000 - 5 * 60 * 1000 ∧
    getUserDevices (sweepStaleDevices stateStale 600000).1 "u" = [] ∧
    (sweepStaleDevices stateStale 600000).2 = [] := by
  decide

/-- C6 corrected: every device whose lastSeen is strictly older than the
five minute threshold is absent from listByUser after the sweep, and the
sweep emits no broadcast (unlike disconnect, which does trigger a
devices:list broadcast). -/
theorem c6_stale_eviction (s : ServerState) (now : Int) (d u : String)
    (dev : PlaybackDevice) (hwf : RegistryWF s)
    (hd : getDevice s d = some dev) (hstale : dev.lastSeen < now - 5 * 60 * 1000) :
    ((getUserDevices (sweepStaleDevices s now).1 u).all
      fun dev2 => !(dev2.deviceId == d)) = true ∧
    (sweepStaleDevices s now).2 = [] := by
  obtain ⟨h1, h2⟩ := hwf
  refine ⟨?_, rfl⟩
  apply List.all_eq_true.mpr
  intro dev2 hdev2
  rcases List.mem_filter.mp hdev2 with ⟨hmem, _⟩
  rcases List.mem_map.mp hmem with ⟨p, hp, hp2⟩
  rcases List.mem_filter.mp hp with ⟨hpm, hkeep⟩
  have hfresh : ¬(p.2.lastSeen < now - 5 * 60 * 1000) := by simpa using hkeep
  simp only [Bool.not_eq_true']
  apply beq_eq_false_iff_ne.mpr
  intro heq
  have hkey : p.1 = d := by rw [← h2 p hpm, hp2, heq]
  have hget : mapGet s.activeDevices p.1 = some p.2 := mapGet_of_mem_nodup h1 hpm
  rw [hkey] at hget
  have hpd : p.2 = dev := by
    have := hget.symm.trans hd
    exact Option.some.inj this
  rw [hpd] at hfresh
  exact hfresh hstale

/-- C6 witness: the amended eviction behaviour at the concrete stale
state. -/
theorem c6_stale_eviction_witness :
    ((getUserDevices (sweepStaleDevices stateStale 600000).1 "u").all
      fun dev2 => !(dev2.deviceId == "S")) = true :=
  (c6_stale_eviction stateStale 600000 "S" "u" staleDevice
    (by decide) (by decide) (by decide)).1

/-- C7 confirmed: registering the same deviceId twice, possibly with a new
name and socket, leaves exactly one entry for that deviceId in listByUser,
and it carries the deviceName of the later call. -/
theorem c7_idempotent_reregistration (s : ServerState) (sock1 sock2 u d n1 n2 : String)
    (now1 now2 : Int) (hwf : RegistryWF s) :
    (getUserDevices (handleRegister (handleRegister s sock1 u d n1 now1).1
        sock2 u d n2 now2).1 u).filter (fun dev => dev.deviceId == d) =
      [{ socketId := sock2, deviceId := d, deviceName := n2, userId := u,
         isPlaying := false, currentTrack := none, currentTime := 0, volume := 1,
         lastSeen := now2 }] := by
  obtain ⟨h1, h2⟩ := hwf
  unfold getUserDevices
  rw [handleRegister_activeDevices, handleRegister_activeDevices]
  have hn1 : (((mapSet s.activeDevices d
      { socketId := sock1, deviceId := d, deviceName := n1, userId := u,
        isPlaying := false, currentTrack := none, currentTime := 0, volume := 1,
        lastSeen := now1 }).map Prod.fst)).Nodup := mapSet_keys_nodup _ _ _ h1
  have hk1 := mapSet_key_invariant s.activeDevices d
    { socketId := sock1, deviceId := d, deviceName := n1, userId := u,
      isPlaying := false, currentTrack := none, currentTime := 0, volume := 1,
      lastSeen := now1 } h2 rfl
  have hn2 := mapSet_keys_nodup _ d
    { socketId := sock2, deviceId := d, deviceName := n2, userId := u,
      isPlaying := false, currentTrack := none, currentTime := 0, volume := 1,
      lastSeen := now2 } hn1
  have hk2 := mapSet_key_invariant _ d
    { socketId := sock2, deviceId := d, deviceName := n2, userId := u,
      isPlaying := false, currentTrack := none, currentTime := 0, volume := 1,
      lastSeen := now2 } hk1 rfl
  rw [List.filter_comm]
  rw [filter_by_deviceId _ hn2 hk2 d]
  rw [mapGet_mapSet_self]
  simp

/-- C7 witness: re-registration at a concrete prior state. -/
theorem c7_idempotent_reregistration_witness :
    (getUserDevices (handleRegister (handleRegister stateAB "s1" "u" "A" "PhoneOld" 5).1
        "s2" "u" "A" "PhoneNew" 6).1 "u").filter (fun dev => dev.deviceId == "A") =
      [{ socketId := "s2", deviceId := "A", deviceName := "PhoneNew", userId := "u",
         isPlaying := false, currentTrack := none, currentTime := 0, volume := 1,
         lastSeen := 6 }] :=
  c7_idempotent_reregistration stateAB "s1" "s2" "u" "A" "PhoneOld" "PhoneNew" 5 6
    (by decide)

/-- C8 counterexample: the setActivePlayer handler does consult the Device
Registry: with device X registered to another user v, a call by user u
naming X is rejected with playback:error and the mapping is not updated to
X.  This refutes the claim that for every deviceId the call updates the
mapping and broadcasts rather than being rejected. -/
theorem c8_setActivePlayer_counterexample :
    handleSetActivePlayer stateCross "sA" "u" (some "X") =
      (stateCross, [.errorToSender "sA" "Device not authorized"]) ∧
    getActivePlayer stateCross "u" ≠ some "X" := by
  decide

/-- C8 corrected: when the argument is null, names a deviceId absent from
the registry, or names a device owned by the caller, the call is accepted:
the mapping is overwritten with the argument and the authority change is
broadcast; in particular an unregistered deviceId is accepted with only a
console warning.  Only a deviceId registered to a different user is
rejected. -/
theorem c8_setActivePlayer_no_registry_validation (s : ServerState) (sock uid : String)
    (arg : Option String)
    (h : (arg.all fun d => (getDevice s d).all fun dev => dev.userId == uid) = true) :
    handleSetActivePlayer s sock uid arg =
      (setActivePlayer s uid arg, [.activePlayerBroadcast uid arg]) ∧
    getActivePlayer (handleSetActivePlayer s sock uid arg).1 uid = arg := by
  have h1 : handleSetActivePlayer s sock uid arg =
      (setActivePlayer s uid arg, [.activePlayerBroadcast uid arg]) := by
    unfold handleSetActivePlayer
    rcases arg with _ | d
    · rfl
    · rcases hg : getDevice s d with _ | device
      · simp only [hg]
      · have hbeq : (device.userId == uid) = true := by
          simpa [Option.all, hg] using h
        simp only [hg]
        rw [if_pos hbeq]
  refine ⟨h1, ?_⟩
  rw [h1]
  show (mapGet (mapSet s.userActivePlayer uid arg) uid).getD none = arg
  rw [mapGet_mapSet_self]
  rfl

/-- C8 witness: setting authority to the unregistered device ghost is
accepted and updates the mapping. -/
theorem c8_setActivePlayer_no_registry_validation_witness :
    getActivePlayer (handleSetActivePlayer stateAB "sA" "u" (some "ghost")).1 "u" =
      some "ghost" :=
  (c8_setActivePlayer_no_registry_validation stateAB "sA" "u" (some "ghost")
    (by decide)).2

/-- C9 counterexample: with activePlayerId equal to the empty string and a
different own device id, the derived isActivePlayer is false and
activePlayerId is non-null, so the claim requires the action to be
forwarded; the code instead falls through the JS truthiness test of the
else-if branch and executes locally.  This refutes the claim for the
empty-string device id, which the string-or-null type admits. -/
theorem c9_dispatch_counterexample :
    viewIsActivePlayer { activePlayerId := some "", currentDeviceId := some "dev1" } = false ∧
    (some "" : Option String) ≠ none ∧
    executeOrForward { activePlayerId := some "", currentDeviceId := some "dev1" }
      { activePlayerId := some "", currentDeviceId := some "dev1" } = .localExec := by
  decide

/-- C9 corrected: the dispatch decision depends only on the current view
read through the getters, never on the captured view; when isActivePlayer
is true the action executes locally; when isActivePlayer is false and
activePlayerId is non-null and non-empty the action is forwarded to
activePlayerId and not executed locally (the decision is exclusive by
construction); when activePlayerId is null or empty the action executes
locally as the fallback. -/
theorem c9_dispatch_rule (captured other current : AuthView) :
    (executeOrForward captured current = executeOrForward other current) ∧
    (viewIsActivePlayer current = true → executeOrForward captured current = .localExec) ∧
    (viewIsActivePlayer current = false →
      ∀ tid, current.activePlayerId = some tid → tid ≠ "" →
        executeOrForward captured current = .forward tid) ∧
    (viewIsActivePlayer current = false → jsTruthyId current.activePlayerId = false →
      executeOrForward captured current = .localExec) := by
  refine ⟨rfl, ?_, ?_, ?_⟩
  · intro h
    unfold executeOrForward
    rw [if_pos h]
  · intro h tid htid hne
    unfold executeOrForward
    rw [if_neg (by simp [h]), htid]
    have htr : jsTruthyId (some tid) = true := by simp [jsTruthyId, hne]
    rw [if_pos htr]
    simp
  · intro h ht
    unfold executeOrForward
    rw [if_neg (by simp [h]), if_neg (by simp [ht])]

/-- C9 witness: a non-active device with a non-empty remote authority id
forwards the action to that device. -/
theorem c9_dispatch_rule_witness :
    executeOrForward { activePlayerId := some "dev2", currentDeviceId := some "dev1" }
      { activePlayerId := some "dev2", currentDeviceId := some "dev1" } = .forward "dev2" :=
  (c9_dispatch_rule { activePlayerId := some "dev2", currentDeviceId := some "dev1" }
    { activePlayerId := some "dev2", currentDeviceId := some "dev1" }
    { activePlayerId := some "dev2", currentDeviceId := some "dev1" }).2.2.1
    (by decide) "dev2" rfl (by decide)

/-- C10 confirmed: the disconnect handler deletes at most the registry
entry whose socketId is the disconnecting socket, so every entry with a
different socketId, in particular a freshly re-registered entry living on a
new socket, survives and its device remains in listByUser. -/
theorem c10_reconnect_safe_disconnect (s : ServerState) (sock uid : String)
    (hwf : RegistryWF s) (p : String × PlaybackDevice)
    (hp : p ∈ s.activeDevices) (hs : p.2.socketId ≠ sock) :
    p ∈ (handleDisconnect s sock uid).1.activeDevices ∧
    p.2 ∈ getUserDevices (handleDisconnect s sock uid).1 p.2.userId := by
  obtain ⟨h1, h2⟩ := hwf
  have hmain : p ∈ (handleDisconnect s sock uid).1.activeDevices := by
    unfold handleDisconnect
    cases hg : getDeviceBySocketId s sock with
    | none =>
      simp only [hg]
      exact hp
    | some device =>
      simp only [hg]
      unfold mapDelete
      apply List.mem_filter.mpr
      refine ⟨hp, ?_⟩
      unfold getDeviceBySocketId at hg
      have hdev_mem : device ∈ s.activeDevices.map Prod.snd :=
        List.mem_of_find?_eq_some hg
      have hdev_sock := List.find?_some hg
      rcases List.mem_map.mp hdev_mem with ⟨q, hqm, hq2⟩
      simp only [Bool.not_eq_true']
      apply beq_eq_false_iff_ne.mpr
      intro hpk
      have hqkey : q.1 = device.deviceId := by rw [← h2 q hqm, hq2]
      have hpq : p = q := eq_of_mem_nodup_keys h1 hp hqm (by rw [hpk, hqkey])
      apply hs
      rw [hpq, hq2]
      simpa using hdev_sock
  exact ⟨hmain, mem_getUserDevices_self hmain⟩

/-- C10 witness: device d re-registers on socket s2, then the old socket s1
disconnects; the fresh entry survives. -/
theorem c10_reconnect_safe_disconnect_witness :
    (("d", { socketId := "s2", deviceId := "d", deviceName := "Phone", userId := "u",
             isPlaying := false, currentTrack := none, currentTime := 0, volume := 1,
             lastSeen := 1 }) : String × PlaybackDevice) ∈
      (handleDisconnect (handleRegister (handleRegister initState "s1" "u" "d" "Phone" 0).1
        "s2" "u" "d" "Phone" 1).1 "s1" "u").1.activeDevices :=
  (c10_reconnect_safe_disconnect
    (handleRegister (handleRegister initState "s1" "u" "d" "Phone" 0).1
      "s2" "u" "d" "Phone" 1).1 "s1" "u" (by decide)
    ("d", { socketId := "s2", deviceId := "d", deviceName := "Phone", userId := "u",
            isPlaying := false, currentTrack := none, currentTime := 0, volume := 1,
            lastSeen := 1 }) (by decide) (by decide)).1

end Lidify
